import Mathlib

/-!
Shallow embedding of the risk-managed trade lifecycle engine:
`PositionSizer` (position_sizer.py) and `TradeCloser` (trade_closer.py).
Prices, equity and P&L amounts are modelled as rationals, times as rational
numbers of minutes (sizer cooldown clock) or seconds (closer durations).
Python `int(...)` truncation is `py_int`.
-/

set_option autoImplicit false

/-- Truncation toward zero, the behaviour of Python `int(...)` on a float. -/
def py_int (q : ℚ) : ℤ := if 0 ≤ q then ⌊q⌋ else -⌊-q⌋

/-- Python's `str.endswith`, modelled over the character list. -/
def ends_with (s suffix : String) : Bool := suffix.data.isSuffixOf s.data

/-- Pip size convention shared by sizer and closer:
`0.01 if instrument.endswith("JPY") else 0.0001`. -/
def pip_size (instrument : String) : ℚ :=
  if ends_with instrument "JPY" then 1/100 else 1/10000

/-- Constructor parameters of `PositionSizer.__init__` with their defaults. -/
structure SizerConfig where
  min_risk : ℚ := 1/100
  max_risk : ℚ := 3/100
  max_open_trades : ℕ := 100
  max_drawdown : ℚ := 1/10
  max_daily_loss : ℚ := 1/50

def defaultConfig : SizerConfig := {}

/-- `trade_cooldown_minutes = 0.1` (six seconds), in minutes. -/
def trade_cooldown_minutes : ℚ := 1/10

/-- `min_confidence = 0.5`. -/
def min_confidence : ℚ := 1/2

/-- `trade_state["daily_stats"]` (the date rollover is not modelled;
all claims are about a single trading day). -/
structure DailyStats where
  trades : ℕ
  wins : ℕ
  losses : ℕ
  pnl : ℚ
  max_loss : ℚ
  deriving DecidableEq

/-- Per-instrument entry of `trade_state["performance"]`. -/
structure Perf where
  wins : ℕ
  losses : ℕ
  confidence : ℚ
  avg_win : ℚ
  avg_loss : ℚ
  total_trades : ℕ
  deriving DecidableEq

/-- The default a `defaultdict` materialises on first `[...]` access. -/
def defaultPerf : Perf :=
  { wins := 0, losses := 0, confidence := 7/10,
    avg_win := 0, avg_loss := 0, total_trades := 0 }

/-- `trade_state["risk_metrics"]`. -/
structure RiskMetrics where
  current_drawdown : ℚ
  daily_loss : ℚ
  consecutive_losses : ℕ
  max_consecutive_losses : ℕ
  deriving DecidableEq

/-- The mutable `trade_state` dictionary of `PositionSizer`.
`performance` maps an instrument to `none` when the dict holds no entry for
it yet (a `defaultdict`: `[...]` access materialises `defaultPerf`, while
`.get` does not). -/
structure TradeState where
  last_trade_time : String → Option ℚ
  open_trades : ℤ
  daily_stats : DailyStats
  peak_equity : ℚ
  performance : String → Option Perf
  risk_metrics : RiskMetrics

/-- The freshly constructed `trade_state` (no persisted file). -/
def initState : TradeState :=
  { last_trade_time := fun _ => none
    open_trades := 0
    daily_stats := { trades := 0, wins := 0, losses := 0, pnl := 0, max_loss := 0 }
    peak_equity := 0
    performance := fun _ => none
    risk_metrics := { current_drawdown := 0, daily_loss := 0,
                      consecutive_losses := 0, max_consecutive_losses := 0 } }

/-- `PositionSizer.update_equity_and_drawdown`, with the broker equity as an
optional input (`None` causes an early return). -/
def update_equity_and_drawdown (s : TradeState) (equity : Option ℚ) : TradeState :=
  match equity with
  | none => s
  | some e =>
    let s := if s.peak_equity < e then { s with peak_equity := e } else s
    if 0 < s.peak_equity then
      { s with risk_metrics :=
          { s.risk_metrics with
              current_drawdown := (s.peak_equity - e) / s.peak_equity } }
    else s

/-- `PositionSizer.update_performance(instrument, won, pnl)`. -/
def update_performance (s : TradeState) (instrument : String) (won : Bool) (pnl : ℚ) :
    TradeState :=
  let p := (s.performance instrument).getD defaultPerf
  let p := { p with total_trades := p.total_trades + 1 }
  let p' :=
    if won then
      { p with wins := p.wins + 1
               avg_win := (p.avg_win * p.wins + pnl) / (p.wins + 1)
               confidence := min 1 (p.confidence + 5/100) }
    else
      { p with losses := p.losses + 1
               avg_loss := (p.avg_loss * p.losses + |pnl|) / (p.losses + 1)
               confidence := max (1/10) (p.confidence - 1/10) }
  let cl := if won then 0 else s.risk_metrics.consecutive_losses + 1
  let rm := { s.risk_metrics with
                consecutive_losses := cl
                max_consecutive_losses := max s.risk_metrics.max_consecutive_losses cl }
  let ds := { s.daily_stats with
                trades := s.daily_stats.trades + 1
                pnl := s.daily_stats.pnl + pnl }
  let ds :=
    if won then { ds with wins := ds.wins + 1 }
    else { ds with losses := ds.losses + 1
                   max_loss := min ds.max_loss pnl }
  { s with performance := fun j => if j = instrument then some p' else s.performance j
           risk_metrics := rm
           daily_stats := ds }

/-- `PositionSizer.get_confidence`: `.get(instrument, {}).get("confidence", 0.5)`
reads through without materialising a default entry. -/
def get_confidence (s : TradeState) (instrument : String) : ℚ :=
  match s.performance instrument with
  | some p => p.confidence
  | none => 1/2

/-- The distinct reason strings `can_trade` can return. -/
inductive TradeDenial where
  | ok
  | cooldown
  | maxOpenTrades
  | drawdown
  | dailyLoss
  | consecutiveLosses
  deriving DecidableEq, Repr

/-- `last_time and datetime.utcnow() - last_time < timedelta(minutes=0.1)`. -/
def cooldown_active (s : TradeState) (instrument : String) (now : ℚ) : Bool :=
  match s.last_trade_time instrument with
  | some t => now - t < trade_cooldown_minutes
  | none => false

/-- `PositionSizer.can_trade(instrument)`: the five gates in source order,
returning on the first failure. -/
def can_trade (cfg : SizerConfig) (s : TradeState) (instrument : String) (now : ℚ) :
    Bool × TradeDenial :=
  if cooldown_active s instrument now then (false, .cooldown)
  else if (cfg.max_open_trades : ℤ) ≤ s.open_trades then (false, .maxOpenTrades)
  else if cfg.max_drawdown < s.risk_metrics.current_drawdown then (false, .drawdown)
  else if s.daily_stats.max_loss < -cfg.max_daily_loss then (false, .dailyLoss)
  else if 5 ≤ s.risk_metrics.consecutive_losses then (false, .consecutiveLosses)
  else (true, .ok)

/-- `PositionSizer.record_trade`. -/
def record_trade (s : TradeState) (instrument : String) (now : ℚ) : TradeState :=
  { s with
      last_trade_time := fun j => if j = instrument then some now else s.last_trade_time j
      open_trades := s.open_trades + 1 }

/-- `PositionSizer.close_trade` (the instrument argument is unused there too). -/
def close_trade (s : TradeState) (_instrument : String) : TradeState :=
  { s with open_trades := max 0 (s.open_trades - 1) }

/-! ## TradeCloser (trade_closer.py) -/

/-- Exit parameters set in `TradeCloser.__init__`. -/
def trailing_stop_pips : ℚ := 15

def min_profit_threshold : ℚ := 3

/-- `timedelta(hours=4)`, in seconds. -/
def max_trade_duration : ℚ := 14400

def min_risk_reward : ℚ := 6/5

def max_loss_pips : ℚ := 30

/-- One entry of `TradeCloser.trailing_stops`. -/
structure TrailingStop where
  entry_price : ℚ
  highest_price : ℚ
  lowest_price : ℚ
  deriving DecidableEq

/-- `TradeCloser._update_trailing_stop`. -/
def update_trailing_stop (ts : TrailingStop) (current_price : ℚ) (is_short : Bool) :
    TrailingStop :=
  if is_short then
    if current_price < ts.lowest_price then { ts with lowest_price := current_price } else ts
  else
    if ts.highest_price < current_price then { ts with highest_price := current_price } else ts

/-- The distinct exit reasons `_check_exit_conditions` can return. -/
inductive ExitReason where
  | maxDuration
  | profitTarget
  | trailingStop
  | maxLoss
  | momentumReversal
  deriving DecidableEq, Repr

/-- Condition 3 of `_check_exit_conditions` (`trade_id in self.trailing_stops`
is modelled by the trailing-stop entry being an `Option`). -/
def trailing_exit (ts? : Option TrailingStop) (pip current_price : ℚ) (is_short : Bool) :
    Bool :=
  match ts? with
  | none => false
  | some ts =>
    if is_short then ts.lowest_price + trailing_stop_pips * pip ≤ current_price
    else current_price ≤ ts.highest_price - trailing_stop_pips * pip

/-- `TradeCloser._check_exit_conditions`, the five conditions in source order.
`momentum` is the value of the external analytic `_check_momentum_reversal`
(network candle data, taken as an input). -/
def check_exit_conditions (ts? : Option TrailingStop) (instrument : String)
    (current_price entry_price unrealized_pl initial_margin duration : ℚ)
    (is_short momentum : Bool) : Option ExitReason :=
  if max_trade_duration < duration then some .maxDuration
  else if min_profit_threshold ≤ |current_price - entry_price| / pip_size instrument
      ∧ min_risk_reward ≤ (if 0 < initial_margin then unrealized_pl / initial_margin else 0)
    then some .profitTarget
  else if trailing_exit ts? (pip_size instrument) current_price is_short then some .trailingStop
  else if max_loss_pips ≤ |current_price - entry_price| / pip_size instrument then some .maxLoss
  else if momentum then some .momentumReversal
  else none

/-- One closed-trade record appended by `_update_performance_tracking`. -/
structure ClosedTrade where
  trade_id : String
  pnl : ℚ
  duration_minutes : ℚ
  closed_at : ℚ
  won : Bool
  deriving DecidableEq

/-- `TradeCloser.daily_stats`. -/
structure CloserDaily where
  trades_closed : ℕ
  wins : ℕ
  losses : ℕ
  total_pnl : ℚ
  max_profit : ℚ
  max_loss : ℚ
  deriving DecidableEq

/-- The mutable state `_close_trade` / `_update_performance_tracking` touch:
the sizer's trade state, the trailing-stop map (an association list keyed by
trade id) and the closer's own performance tracking. -/
structure CloserState where
  sizer : TradeState
  trailing_stops : List (String × TrailingStop)
  closed_trades : List ClosedTrade
  daily_stats : CloserDaily

/-- `TradeCloser._close_trade`: `broker_ok` is the success flag returned by
`oanda.close_trade`.  Only a confirmed success decrements the sizer's
open-trade count and drops the trailing-stop entry. -/
def close_trade_step (broker_ok : Bool) (st : CloserState) (trade_id instrument : String) :
    Bool × CloserState :=
  if broker_ok then
    (true,
      { st with
          sizer := close_trade st.sizer instrument
          trailing_stops := st.trailing_stops.filter (fun e => e.1 != trade_id) })
  else (false, st)

/-- `TradeCloser._update_performance_tracking`. -/
def update_performance_tracking (st : CloserState) (trade_id : String)
    (pnl duration_minutes now : ℚ) : CloserState :=
  let record : ClosedTrade :=
    { trade_id := trade_id, pnl := pnl, duration_minutes := duration_minutes,
      closed_at := now, won := 0 < pnl }
  let ds := { st.daily_stats with
                trades_closed := st.daily_stats.trades_closed + 1
                total_pnl := st.daily_stats.total_pnl + pnl }
  let ds :=
    if 0 < pnl then { ds with wins := ds.wins + 1
                              max_profit := max ds.max_profit pnl }
    else { ds with losses := ds.losses + 1
                   max_loss := min ds.max_loss pnl }
  { st with closed_trades := st.closed_trades ++ [record], daily_stats := ds }

/-- The three outcomes of `_evaluate_trade` on an evaluated position. -/
inductive CloserAction where
  | closed
  | updated
  | noAction
  deriving DecidableEq, Repr

/-- The tail of `TradeCloser._evaluate_trade`: given whether the exit
evaluation fired and whether the broker confirmed the close, perform the
close attempt and, only on success, the performance bookkeeping. -/
def evaluate_trade_close (should_exit broker_ok : Bool) (st : CloserState)
    (trade_id instrument : String) (unrealized_pl duration_minutes now : ℚ) :
    CloserAction × CloserState :=
  if should_exit then
    match close_trade_step broker_ok st trade_id instrument with
    | (true, st') =>
        (.closed, update_performance_tracking st' trade_id unrealized_pl duration_minutes now)
    | (false, st') => (.noAction, st')
  else (.updated, st)

/-! ## Position sizing (`PositionSizer.calculate_units`) -/

/-- The clamped linear risk interpolation of `calculate_units`:
`risk_percentage = min(max(min_risk + (max_risk - min_risk) * conf, min_risk), max_risk)`. -/
def risk_percentage_of (cfg : SizerConfig) (confidence : ℚ) : ℚ :=
  min (max (cfg.min_risk + (cfg.max_risk - cfg.min_risk) * confidence) cfg.min_risk) cfg.max_risk

/-- `PositionSizer._calculate_volatility_adjustment`. -/
def calculate_volatility_adjustment (s : TradeState) (confidence : ℚ) : ℚ :=
  min
    ((if confidence < 3/5 then (3/2 : ℚ) else 1) *
      (if 0 < s.risk_metrics.consecutive_losses
        then 1 + (s.risk_metrics.consecutive_losses : ℚ) * (1/10) else 1))
    (5/2)

/-- `PositionSizer._calculate_kelly_adjustment`. -/
def calculate_kelly_adjustment (s : TradeState) (instrument : String) : ℚ :=
  let p := (s.performance instrument).getD defaultPerf
  if p.total_trades < 10 then 1/2
  else
    let win_rate := if 0 < p.total_trades then (p.wins : ℚ) / p.total_trades else 1/2
    let avg_win := if 0 < p.avg_win then p.avg_win else 1
    let avg_loss := if 0 < p.avg_loss then p.avg_loss else 1
    let b := avg_win / avg_loss
    let kelly_fraction := if 0 < b then (b * win_rate - (1 - win_rate)) / b else 0
    let conservative := max 0 (min (kelly_fraction * (1/2)) (1/4))
    if 0 < conservative then conservative else 1/10

/-- `PositionSizer.calculate_units`, with every broker read (equity, balance,
margin, price) passed as an optional input.  Returns the unit count (0 means
no trade). -/
def calculate_units (cfg : SizerConfig) (s : TradeState) (instrument : String)
    (stop_loss_pips confidence_boost now : ℚ)
    (equity balance margin_available price : Option ℚ) : ℤ :=
  let s := update_equity_and_drawdown s equity
  if (can_trade cfg s instrument now).1 = false then 0
  else
    match balance with
    | none => 0
    | some bal =>
      let adjusted_confidence := min 1 (get_confidence s instrument + confidence_boost)
      if adjusted_confidence < min_confidence then 0
      else
        let adjusted_stop_loss :=
          stop_loss_pips * calculate_volatility_adjustment s adjusted_confidence
        let risk_amount := bal * risk_percentage_of cfg adjusted_confidence
        match margin_available with
        | none => 0
        | some margin =>
          let units_by_risk := py_int (risk_amount / (adjusted_stop_loss * pip_size instrument))
          match price with
          | none => 0
          | some pr =>
            let max_units_margin := py_int (margin / pr * (4/5))
            let units :=
              py_int ((min units_by_risk max_units_margin : ℚ) *
                calculate_kelly_adjustment s instrument)
            if units < 1 then 0 else units

/-! ## Derived update sequences -/

/-- A run of `update_performance` calls (instrument, won, pnl). -/
def apply_updates (s : TradeState) (us : List (String × Bool × ℚ)) : TradeState :=
  us.foldl (fun t u => update_performance t u.1 u.2.1 u.2.2) s

/-- The confidence the sizer's bookkeeping path reads and writes for an
instrument (`trade_state["performance"][instrument]["confidence"]`, with the
`defaultdict` default for an absent entry). -/
def conf_of (s : TradeState) (instrument : String) : ℚ :=
  ((s.performance instrument).getD defaultPerf).confidence

/-- The spec's phrase for gate (4): "today's worst cumulative loss" — the
lowest point reached by the running sum of the day's trade P&Ls.  Stated
from the spec's words for comparison against the code's gate, which tests
`daily_stats["max_loss"]`, the worst single-trade P&L. -/
def spec_worst_cumulative_loss (pnls : List ℚ) : ℚ :=
  (pnls.scanl (fun a b => a + b) 0).foldl min 0

/-- The two `trade_state`-mutating trade events of the sizer. -/
inductive SizerEvent where
  | record (instrument : String) (now : ℚ)
  | close (instrument : String)

/-- Apply one `record_trade` / `close_trade` event. -/
def apply_event (s : TradeState) : SizerEvent → TradeState
  | .record instrument now => record_trade s instrument now
  | .close instrument => close_trade s instrument

def apply_events (s : TradeState) (es : List SizerEvent) : TradeState :=
  es.foldl apply_event s

def record_count (es : List SizerEvent) : ℕ :=
  es.countP fun e => match e with | .record _ _ => true | .close _ => false

def close_count (es : List SizerEvent) : ℕ :=
  es.countP fun e => match e with | .record _ _ => false | .close _ => true

/-! ## Claim theorems -/

/-- C5: whenever the current drawdown exceeds `max_drawdown`, `can_trade`
returns false for every instrument, whatever the other gates say: every
earlier gate that fires also returns false, and the drawdown gate itself
fires before any later gate can return true. -/
theorem c5_drawdown_gate (cfg : SizerConfig) (s : TradeState) (instrument : String) (now : ℚ)
    (h : cfg.max_drawdown < s.risk_metrics.current_drawdown) :
    (can_trade cfg s instrument now).1 = false := by
  unfold can_trade
  split_ifs <;> simp_all

/-- Witness for C5 at a concrete state with drawdown 20% > 10%. -/
theorem c5_drawdown_gate_witness :
    (can_trade defaultConfig
      { initState with risk_metrics := { initState.risk_metrics with current_drawdown := 1/5 } }
      "EUR_USD" 0).1 = false := by
  apply c5_drawdown_gate
  norm_num [defaultConfig, initState]

/-- C8: a failed broker close is atomic — `_evaluate_trade` leaves the whole
closer state (open-trade count, trailing-stop map, performance bookkeeping)
untouched and reports no close; only a confirmed success decrements the
count, drops the position's trailing-stop entry and appends the
closed-trade record. -/
theorem c8_failed_close_atomic (st : CloserState) (trade_id instrument : String)
    (unrealized_pl duration_minutes now : ℚ) :
    evaluate_trade_close true false st trade_id instrument unrealized_pl duration_minutes now
        = (.noAction, st)
    ∧ close_trade_step false st trade_id instrument = (false, st)
    ∧ (evaluate_trade_close true true st trade_id instrument
          unrealized_pl duration_minutes now).2.sizer.open_trades
        = max 0 (st.sizer.open_trades - 1)
    ∧ (evaluate_trade_close true true st trade_id instrument
          unrealized_pl duration_minutes now).2.trailing_stops
        = st.trailing_stops.filter (fun e => e.1 != trade_id)
    ∧ (evaluate_trade_close true true st trade_id instrument
          unrealized_pl duration_minutes now).2.closed_trades
        = st.closed_trades ++
            [{ trade_id := trade_id, pnl := unrealized_pl,
               duration_minutes := duration_minutes, closed_at := now,
               won := 0 < unrealized_pl }] := by
  refine ⟨rfl, rfl, ?_, ?_, ?_⟩ <;>
    simp [evaluate_trade_close, close_trade_step, update_performance_tracking, close_trade]

lemma open_trades_nonneg_event (s : TradeState) (e : SizerEvent) (h : 0 ≤ s.open_trades) :
    0 ≤ (apply_event s e).open_trades := by
  cases e with
  | record instrument now => simp [apply_event, record_trade]; omega
  | close instrument => simp [apply_event, close_trade]

lemma open_trades_nonneg_fold (s : TradeState) (es : List SizerEvent) (h : 0 ≤ s.open_trades) :
    0 ≤ (apply_events s es).open_trades := by
  induction es generalizing s with
  | nil => exact h
  | cons e es ih =>
    simp only [apply_events, List.foldl_cons] at *
    exact ih _ (open_trades_nonneg_event s e h)

/-- C10 as stated is false: `[close, close, record]` contains more
`close_trade` than `record_trade` calls, yet leaves the open-trade count at
1, not 0 (the two closes at count 0 are no-ops). -/
theorem c10_counterexample :
    record_count [SizerEvent.close "EUR_USD", SizerEvent.close "EUR_USD",
        SizerEvent.record "EUR_USD" 0]
      < close_count [SizerEvent.close "EUR_USD", SizerEvent.close "EUR_USD",
        SizerEvent.record "EUR_USD" 0]
    ∧ (apply_events initState [SizerEvent.close "EUR_USD", SizerEvent.close "EUR_USD",
        SizerEvent.record "EUR_USD" 0]).open_trades = 1 := by
  constructor
  · simp [record_count, close_count]
  · simp [apply_events, apply_event, record_trade, close_trade, initState]

/-- C10 (amended): `record_trade` increments the open-trade count by exactly
one, `close_trade` decrements clamped at zero, so from the fresh state the
count stays non-negative after every event sequence (a sequence with more
closes than records need not end at exactly 0, but can never go negative). -/
theorem c10_open_trades_nonneg (s : TradeState) (instrument : String) (now : ℚ)
    (es : List SizerEvent) :
    (record_trade s instrument now).open_trades = s.open_trades + 1
    ∧ (close_trade s instrument).open_trades = max 0 (s.open_trades - 1)
    ∧ 0 ≤ (apply_events initState es).open_trades :=
  ⟨rfl, rfl, open_trades_nonneg_fold initState es (by simp [initState])⟩

lemma conf_of_update (s : TradeState) (instrument : String) (won : Bool) (pnl : ℚ) :
    conf_of (update_performance s instrument won pnl) instrument
      = if won then min 1 (conf_of s instrument + 5/100)
        else max (1/10) (conf_of s instrument - 1/10) := by
  cases won <;> simp [conf_of, update_performance]

lemma conf_of_update_other (s : TradeState) (instrument j : String) (won : Bool) (pnl : ℚ)
    (h : j ≠ instrument) :
    conf_of (update_performance s instrument won pnl) j = conf_of s j := by
  cases won <;> simp [conf_of, update_performance, h]

lemma conf_bounds_step (s : TradeState) (instrument j : String) (won : Bool) (pnl : ℚ)
    (h : 1/10 ≤ conf_of s j ∧ conf_of s j ≤ 1) :
    1/10 ≤ conf_of (update_performance s instrument won pnl) j
      ∧ conf_of (update_performance s instrument won pnl) j ≤ 1 := by
  by_cases hj : j = instrument
  · subst hj
    rw [conf_of_update]
    cases won with
    | true =>
      rw [if_pos rfl]
      constructor
      · exact le_min (by norm_num) (by linarith [h.1])
      · exact min_le_left _ _
    | false =>
      rw [if_neg Bool.false_ne_true]
      constructor
      · exact le_max_left _ _
      · exact max_le (by norm_num) (by linarith [h.2])
  · rw [conf_of_update_other s instrument j won pnl hj]
    exact h

lemma conf_bounds_fold (s : TradeState) (us : List (String × Bool × ℚ)) (j : String)
    (h : 1/10 ≤ conf_of s j ∧ conf_of s j ≤ 1) :
    1/10 ≤ conf_of (apply_updates s us) j ∧ conf_of (apply_updates s us) j ≤ 1 := by
  induction us generalizing s with
  | nil => exact h
  | cons u us ih =>
    simp only [apply_updates, List.foldl_cons] at *
    exact ih _ (conf_bounds_step s u.1 j u.2.1 u.2.2 h)

/-- C6: the per-instrument confidence score stays within [0.1, 1.0] over any
sequence of win/loss performance updates from the fresh state, and each
single update is exactly `min 1 (c + 0.05)` on a win and
`max 0.1 (c − 0.10)` on a loss. -/
theorem c6_confidence_interval (us : List (String × Bool × ℚ)) (instrument : String)
    (s : TradeState) (won : Bool) (pnl : ℚ) :
    (1/10 ≤ conf_of (apply_updates initState us) instrument
      ∧ conf_of (apply_updates initState us) instrument ≤ 1)
    ∧ conf_of (update_performance s instrument won pnl) instrument
        = (if won then min 1 (conf_of s instrument + 5/100)
           else max (1/10) (conf_of s instrument - 1/10)) := by
  refine ⟨conf_bounds_fold initState us instrument ?_, conf_of_update s instrument won pnl⟩
  constructor <;> norm_num [conf_of, initState, defaultPerf]

/-- Initial tracking state of `TradeCloser.__init__`: empty trailing-stop
map, no closed trades, zeroed daily stats, over the fresh sizer state. -/
def initCloserState : CloserState :=
  { sizer := initState
    trailing_stops := []
    closed_trades := []
    daily_stats := { trades_closed := 0, wins := 0, losses := 0,
                     total_pnl := 0, max_profit := 0, max_loss := 0 } }

/-- A run of broker-confirmed closes through `_evaluate_trade`'s close path
(`should_exit` and `broker_ok` both true), each close given by its trade id
and unrealized P&L. -/
def apply_confirmed_closes (st : CloserState) (instrument : String)
    (closes : List (String × ℚ)) : CloserState :=
  closes.foldl (fun t c => (evaluate_trade_close true true t c.1 instrument c.2 60 0).2) st

/-- C3 fails on the code as wired: nothing in the repository ever calls
`PositionSizer.update_performance`, the only code that moves the
consecutive-loss counter — the close path's `_update_performance_tracking`
only logs.  So after five broker-confirmed losing closes, duly counted by
the closer's own daily stats, the sizer's consecutive-loss counter is still
0 and `can_trade` still returns true with reason OK, where the claim and
spec require false with the consecutive-losses reason.  Routing the same
five losing closes through the sizer's bookkeeping API (the spec's
`record_close`) would set the counter to 5, as the claim describes. -/
theorem c3_losing_closes_never_trip_breaker :
    (apply_confirmed_closes initCloserState "EUR_USD"
        [("t1", -50), ("t2", -50), ("t3", -50), ("t4", -50),
          ("t5", -50)]).daily_stats.losses = 5
    ∧ (apply_confirmed_closes initCloserState "EUR_USD"
        [("t1", -50), ("t2", -50), ("t3", -50), ("t4", -50),
          ("t5", -50)]).sizer.risk_metrics.consecutive_losses = 0
    ∧ can_trade defaultConfig
        (apply_confirmed_closes initCloserState "EUR_USD"
          [("t1", -50), ("t2", -50), ("t3", -50), ("t4", -50), ("t5", -50)]).sizer
        "EUR_USD" 0 = (true, .ok)
    ∧ (apply_updates initState
        [("EUR_USD", false, -50), ("EUR_USD", false, -50), ("EUR_USD", false, -50),
          ("EUR_USD", false, -50),
          ("EUR_USD", false, -50)]).risk_metrics.consecutive_losses = 5 := by
  refine ⟨?_, ?_, ?_, ?_⟩ <;>
    norm_num [apply_confirmed_closes, evaluate_trade_close, close_trade_step,
      update_performance_tracking, close_trade, initCloserState, initState,
      can_trade, cooldown_active, defaultConfig, apply_updates, update_performance,
      min_def, max_def]

/-- C2 as stated is false: two losing trades of −1.5% each push the worst
cumulative loss of the day to −3%, past the 2% ceiling, yet `can_trade`
still returns true, because the code's gate tests `daily_stats["max_loss"]`,
the worst single trade of the day (−1.5%), not the cumulative loss. -/
theorem c2_counterexample :
    spec_worst_cumulative_loss [-(3/200), -(3/200)] < -defaultConfig.max_daily_loss
    ∧ can_trade defaultConfig
        (apply_updates initState
          [("EUR_USD", false, -(3/200)), ("EUR_USD", false, -(3/200))])
        "EUR_USD" 0 = (true, .ok) := by
  constructor
  · norm_num [spec_worst_cumulative_loss, List.scanl, defaultConfig, min_def]
  · norm_num [apply_updates, update_performance, can_trade, cooldown_active,
      initState, defaultConfig, min_def, max_def]

/-- C2 (amended): when the cooldown, open-position-count and drawdown gates
pass, `can_trade` returns false with the daily-loss reason exactly when the
worst single-trade loss recorded today (`daily_stats["max_loss"]`) is below
`-max_daily_loss`; otherwise gate (4) passes and the result is decided by
the consecutive-loss gate. -/
theorem c2_daily_loss_gate (cfg : SizerConfig) (s : TradeState) (instrument : String)
    (now : ℚ)
    (hc : cooldown_active s instrument now = false)
    (ho : s.open_trades < (cfg.max_open_trades : ℤ))
    (hd : s.risk_metrics.current_drawdown ≤ cfg.max_drawdown) :
    (can_trade cfg s instrument now = (false, .dailyLoss)
        ↔ s.daily_stats.max_loss < -cfg.max_daily_loss)
    ∧ (-cfg.max_daily_loss ≤ s.daily_stats.max_loss →
        can_trade cfg s instrument now =
          if 5 ≤ s.risk_metrics.consecutive_losses
          then (false, .consecutiveLosses) else (true, .ok)) := by
  have e : can_trade cfg s instrument now =
      if s.daily_stats.max_loss < -cfg.max_daily_loss then (false, .dailyLoss)
      else if 5 ≤ s.risk_metrics.consecutive_losses
        then (false, .consecutiveLosses) else (true, .ok) := by
    simp only [can_trade, hc, Bool.false_eq_true, if_false]
    rw [if_neg (not_le.mpr ho), if_neg (not_lt.mpr hd)]
  rw [e]
  constructor
  · split_ifs with h1 h2 <;> simp_all
  · intro h
    rw [if_neg (not_lt.mpr h)]

/-- Witness for C2 (amended) at a concrete state whose worst single-trade
loss of the day is −10%. -/
theorem c2_daily_loss_gate_witness :
    can_trade defaultConfig
        { initState with
            daily_stats := { initState.daily_stats with max_loss := -(1/10) } }
        "EUR_USD" 0 = (false, .dailyLoss) := by
  have h := c2_daily_loss_gate defaultConfig
    { initState with
        daily_stats := { initState.daily_stats with max_loss := -(1/10) } }
    "EUR_USD" 0 rfl (by norm_num [initState, defaultConfig])
    (by norm_num [initState, defaultConfig])
  exact h.1.mpr (by norm_num [initState, defaultConfig])

lemma update_trailing_stop_highest (ts : TrailingStop) (q : ℚ) :
    (update_trailing_stop ts q false).highest_price = max ts.highest_price q := by
  unfold update_trailing_stop
  rw [if_neg Bool.false_ne_true]
  split_ifs with h
  · exact (max_eq_right h.le).symm
  · exact (max_eq_left (not_lt.mp h)).symm

lemma update_trailing_stop_lowest (ts : TrailingStop) (q : ℚ) :
    (update_trailing_stop ts q true).lowest_price = min ts.lowest_price q := by
  unfold update_trailing_stop
  rw [if_pos rfl]
  split_ifs with h
  · exact (min_eq_right h.le).symm
  · exact (min_eq_left (not_lt.mp h)).symm

lemma highest_le_fold (ts : TrailingStop) (ps : List ℚ) :
    ts.highest_price ≤ (ps.foldl (fun t q => update_trailing_stop t q false) ts).highest_price := by
  induction ps generalizing ts with
  | nil => exact le_refl _
  | cons p ps ih =>
    simp only [List.foldl_cons]
    refine le_trans ?_ (ih (update_trailing_stop ts p false))
    rw [update_trailing_stop_highest]
    exact le_max_left _ _

lemma fold_lowest_le (ts : TrailingStop) (ps : List ℚ) :
    (ps.foldl (fun t q => update_trailing_stop t q true) ts).lowest_price ≤ ts.lowest_price := by
  induction ps generalizing ts with
  | nil => exact le_refl _
  | cons p ps ih =>
    simp only [List.foldl_cons]
    refine le_trans (ih (update_trailing_stop ts p true)) ?_
    rw [update_trailing_stop_lowest]
    exact min_le_left _ _

/-- C7: the trailing-stop watermark is updated to the better of its previous
value and the current price (so `highest_price` never decreases and
`lowest_price` never increases across any update sequence), and the
trailing-stop exit test measures the retracement from that watermark —
`current ≤ highest − 15·pip` for a long, `lowest + 15·pip ≤ current` for a
short — not from the entry price. -/
theorem c7_trailing_watermark (ts : TrailingStop) (q : ℚ) (ps : List ℚ)
    (instrument : String) (current_price entry_price unrealized_pl initial_margin duration : ℚ)
    (momentum : Bool) :
    (update_trailing_stop ts q false).highest_price = max ts.highest_price q
    ∧ (update_trailing_stop ts q true).lowest_price = min ts.lowest_price q
    ∧ ts.highest_price ≤
        (ps.foldl (fun t p => update_trailing_stop t p false) ts).highest_price
    ∧ (ps.foldl (fun t p => update_trailing_stop t p true) ts).lowest_price ≤ ts.lowest_price
    ∧ (check_exit_conditions (some ts) instrument current_price entry_price unrealized_pl
          initial_margin duration false momentum = some .trailingStop
        ↔ ¬ max_trade_duration < duration
          ∧ ¬ (min_profit_threshold ≤ |current_price - entry_price| / pip_size instrument
                ∧ min_risk_reward ≤
                    (if 0 < initial_margin then unrealized_pl / initial_margin else 0))
          ∧ current_price ≤ ts.highest_price - trailing_stop_pips * pip_size instrument)
    ∧ (check_exit_conditions (some ts) instrument current_price entry_price unrealized_pl
          initial_margin duration true momentum = some .trailingStop
        ↔ ¬ max_trade_duration < duration
          ∧ ¬ (min_profit_threshold ≤ |current_price - entry_price| / pip_size instrument
                ∧ min_risk_reward ≤
                    (if 0 < initial_margin then unrealized_pl / initial_margin else 0))
          ∧ ts.lowest_price + trailing_stop_pips * pip_size instrument ≤ current_price) := by
  refine ⟨update_trailing_stop_highest ts q, update_trailing_stop_lowest ts q,
    highest_le_fold ts ps, fold_lowest_le ts ps, ?_, ?_⟩ <;>
  · unfold check_exit_conditions
    split_ifs <;> simp_all [trailing_exit]

/-- C4: `_check_exit_conditions` evaluates the five exit conditions in the
fixed source order — time decay, profit target, trailing stop, hard loss
cap, momentum reversal — and the first condition that holds determines the
reason; in particular any duration beyond `max_trade_duration` yields the
duration reason unconditionally, profitable or not, trailing stop hit or
not. -/
theorem c4_exit_priority (ts? : Option TrailingStop) (instrument : String)
    (current_price entry_price unrealized_pl initial_margin duration : ℚ)
    (is_short momentum : Bool) :
    (check_exit_conditions ts? instrument current_price entry_price unrealized_pl
          initial_margin duration is_short momentum = some .maxDuration
        ↔ max_trade_duration < duration)
    ∧ (check_exit_conditions ts? instrument current_price entry_price unrealized_pl
          initial_margin duration is_short momentum = some .profitTarget
        ↔ ¬ max_trade_duration < duration
          ∧ (min_profit_threshold ≤ |current_price - entry_price| / pip_size instrument
              ∧ min_risk_reward ≤
                  (if 0 < initial_margin then unrealized_pl / initial_margin else 0)))
    ∧ (check_exit_conditions ts? instrument current_price entry_price unrealized_pl
          initial_margin duration is_short momentum = some .trailingStop
        ↔ ¬ max_trade_duration < duration
          ∧ ¬ (min_profit_threshold ≤ |current_price - entry_price| / pip_size instrument
                ∧ min_risk_reward ≤
                    (if 0 < initial_margin then unrealized_pl / initial_margin else 0))
          ∧ trailing_exit ts? (pip_size instrument) current_price is_short = true)
    ∧ (check_exit_conditions ts? instrument current_price entry_price unrealized_pl
          initial_margin duration is_short momentum = some .maxLoss
        ↔ ¬ max_trade_duration < duration
          ∧ ¬ (min_profit_threshold ≤ |current_price - entry_price| / pip_size instrument
                ∧ min_risk_reward ≤
                    (if 0 < initial_margin then unrealized_pl / initial_margin else 0))
          ∧ trailing_exit ts? (pip_size instrument) current_price is_short = false
          ∧ max_loss_pips ≤ |current_price - entry_price| / pip_size instrument)
    ∧ (check_exit_conditions ts? instrument current_price entry_price unrealized_pl
          initial_margin duration is_short momentum = some .momentumReversal
        ↔ ¬ max_trade_duration < duration
          ∧ ¬ (min_profit_threshold ≤ |current_price - entry_price| / pip_size instrument
                ∧ min_risk_reward ≤
                    (if 0 < initial_margin then unrealized_pl / initial_margin else 0))
          ∧ trailing_exit ts? (pip_size instrument) current_price is_short = false
          ∧ ¬ max_loss_pips ≤ |current_price - entry_price| / pip_size instrument
          ∧ momentum = true) := by
  unfold check_exit_conditions
  split_ifs <;> simp_all

/-- C1 fails on the code: condition 4 computes
`abs(current_price - entry_price)`, so a 30-pip excursion in the trade's
favor also fires the max-loss reason.  Here a long position (entry 1.0000)
sits 30 pips in profit at 1.0030, its watermark equals the current price so
the trailing stop has not been hit, the risk/reward gate blocks the profit
target, the duration is one hour — and the evaluator still closes it with
the max-loss reason, although the adverse excursion is negative. -/
theorem c1_max_loss_ignores_direction :
    check_exit_conditions
        (some { entry_price := 1, highest_price := 1003/1000, lowest_price := 1 })
        "EUR_USD" (1003/1000) 1 50 100 3600 false false = some .maxLoss
    ∧ (1 : ℚ) < 1003/1000 := by
  constructor
  · norm_num +decide [check_exit_conditions, trailing_exit, pip_size, max_trade_duration,
      min_profit_threshold, min_risk_reward, trailing_stop_pips, max_loss_pips,
      abs_of_pos, abs_of_nonneg]
  · norm_num

/-- The C9 scenario state: one materialised performance entry at the
`defaultdict` confidence 0.7, fresh otherwise. -/
def c9_state : TradeState :=
  { initState with performance := fun j => if j = "EUR_USD" then some defaultPerf else none }

/-- C9: with equity 10,000, the default risk bounds, confidence 0.7, a
20-pip stop and a non-JPY pip value of 0.0001 the sizer computes
`risk_pct = 0.01 + 0.02·0.7 = 0.024`, `risk_amount = 240` and
`units_by_risk = 240 / (20·0.0001) = 120,000` (the volatility multiplier is
1 at confidence 0.7 with no consecutive losses); the result is then bounded
by the 80%-of-margin ceiling and scaled by the conservative Kelly factor
(0.5 below the 10-trade sample threshold): ample margin yields
`120,000 · 0.5 = 60,000` units, margin 100 at price 1 caps the risk units
at 80 and yields 40. -/
theorem c9_sizing_scenario :
    risk_percentage_of defaultConfig (7/10) = 3/125
    ∧ (10000 : ℚ) * risk_percentage_of defaultConfig (7/10) = 240
    ∧ calculate_volatility_adjustment c9_state (7/10) = 1
    ∧ py_int ((10000 * risk_percentage_of defaultConfig (7/10))
        / ((20 * calculate_volatility_adjustment c9_state (7/10)) * pip_size "EUR_USD"))
      = 120000
    ∧ calculate_kelly_adjustment c9_state "EUR_USD" = 1/2
    ∧ calculate_units defaultConfig c9_state "EUR_USD" 20 0 0
        (some 10000) (some 10000) (some 1000000) (some 1) = 60000
    ∧ calculate_units defaultConfig c9_state "EUR_USD" 20 0 0
        (some 10000) (some 10000) (some 100) (some 1) = 40 := by
  refine ⟨by norm_num [risk_percentage_of, defaultConfig], ?_, ?_, ?_, ?_, ?_, ?_⟩ <;>
    norm_num +decide [calculate_units, update_equity_and_drawdown, can_trade,
      cooldown_active, get_confidence, risk_percentage_of, calculate_volatility_adjustment,
      calculate_kelly_adjustment, py_int, pip_size, min_confidence, c9_state, initState,
      defaultConfig, defaultPerf, min_def, max_def]
